import Mathlib

/-!
Shallow embedding of `AuthControllerBase` (client-side authentication session
controller) and the parts of its environment (identity backend, durable
key/value storage) that its behaviour depends on.

Conventions of the embedding:
* `await`-able backend/storage calls whose outcome matters are driven by
  oracle fields in small environment structures; `none` means the call
  resolved, `some e` means it rejected with error `e`.
* Mutable controller fields become fields of `AuthState`, threaded
  explicitly; a thrown error is an `Except.error` paired with the state at
  the throw point.
* Event triggers (`_onPreProcessUser`, `_onSignOut`, `_magicLinkSucceeded`)
  have no subscribers in the base class itself; `_onSignOut` is the only one
  whose (external) failure matters to a claim and it is modelled by an
  oracle outcome in `SignOutEnv`.
-/

set_option autoImplicit false

namespace AuthCtl

/-- Backend error object: `code`, `message` and (for federated sign-in
errors) the `email` the attempt was made with.  A missing/`null` message is
modelled as the empty string. -/
structure ErrCode where
  code : String
  message : String
  email : String
  deriving DecidableEq, Repr

/-- Modelled from the spec: the `AuthProviders` enum lives in
`abstractions/IAuthController`, which is not part of the given sources.  Per
the spec it is the variant set `{ None, EmailAndPassword, EmailLink, Google,
DevLogin }`, where `None` is "an explicit sign-in-attempt-failed marker
distinct from null"; accordingly every member is given a distinct nonempty
string value (so every member is truthy in the source's JS truthiness
tests), and only the empty string maps back to `null`/unknown. -/
inductive AuthProviders where
  | None
  | EmailAndPassword
  | EmailLink
  | Google
  | DevLogin
  deriving DecidableEq, Repr

/-- Modelled from the spec: the string value of each `AuthProviders` member
(values live in the missing `IAuthController`); distinct and nonempty. -/
def provKey : AuthProviders → String
  | .None => "none"
  | .EmailAndPassword => "emailAndPassword"
  | .EmailLink => "emailLink"
  | .Google => "google"
  | .DevLogin => "devLogin"

/-- Modelled from the spec: decoding a persisted provider-id string; the
empty string maps to `null`/unknown (source: `getValue(...) || ''` cast to
`AuthProviders`). -/
def decodeProvider (s : String) : Option AuthProviders :=
  if s = provKey .None then some .None
  else if s = provKey .EmailAndPassword then some .EmailAndPassword
  else if s = provKey .EmailLink then some .EmailLink
  else if s = provKey .Google then some .Google
  else if s = provKey .DevLogin then some .DevLogin
  else none

/-- Modelled from the spec: `MagicLinkRequestReasons` also lives in the
missing `IAuthController`; per the spec it includes at least `PasswordReset`
plus other sign-in reasons.  Distinct nonempty string values. -/
inductive MagicLinkRequestReasons where
  | SignIn
  | SignUp
  | PasswordReset
  deriving DecidableEq, Repr

/-- Modelled from the spec: string value of each `MagicLinkRequestReasons`
member; distinct and nonempty. -/
def reasonKey : MagicLinkRequestReasons → String
  | .SignIn => "signIn"
  | .SignUp => "signUp"
  | .PasswordReset => "passwordReset"

/-- Storage key `'auth:providerid'`. -/
def AuthProviderIdKey : String := "auth:providerid"
/-- Storage key `'auth:signin:email'`. -/
def UserSignInEmailStorageKey : String := "auth:signin:email"
/-- Storage key `'auth:signin:reason'`. -/
def MagicLinkReasonKey : String := "auth:signin:reason"
/-- Storage key `'auth:passwordreset'`. -/
def PasswordResetRequestedKey : String := "auth:passwordreset"

/-- Durable key/value store (`IStorage`): association list, most recent
write first. -/
abbrev Storage : Type := List (String × String)

def Storage.getValue (s : Storage) (k : String) : Option String :=
  (List.find? (fun kv => kv.1 == k) s).map (fun kv => kv.2)

def Storage.setValue (s : Storage) (k v : String) : Storage :=
  (k, v) :: List.filter (fun kv => kv.1 != k) s

def Storage.remove (s : Storage) (k : String) : Storage :=
  List.filter (fun kv => kv.1 != k) s

/-- The backend-reported identity snapshot (`AuthUser`). -/
structure AuthUser where
  uid : String
  displayName : Option String
  email : Option String
  emailVerified : Bool
  phoneNumber : Option String
  photoURL : Option String
  deriving DecidableEq, Repr

/-- `AuthUserWithProviders`: `AuthUser` plus the account's registered
credential methods and the provider that produced this session. -/
structure AuthUserWithProviders extends AuthUser where
  providers : List AuthProviders
  currentProvider : Option AuthProviders
  deriving DecidableEq, Repr

/-- The controller's mutable fields. -/
structure AuthState where
  /-- `_authUser` observable snapshot (`null` ↦ `none`). -/
  authUser : Option AuthUserWithProviders
  /-- `_initializing` counter (`NumberModel`, starts at 0). -/
  initCounter : Int
  /-- `_nextProvider` transient hint (`null` ↦ `none`). -/
  nextProvider : Option AuthProviders
  /-- `_setPasswordMode` flag. -/
  setPasswordMode : Bool
  /-- `_firstInit` flag. -/
  firstInit : Bool
  /-- the durable store behind `this.Storage`. -/
  storage : Storage
  deriving DecidableEq, Repr

/-- Controller state right after the constructor ran, over a pre-existing
durable store. -/
def mkInitialState (st : Storage) : AuthState :=
  { authUser := none
    initCounter := 0
    nextProvider := none
    setPasswordMode := false
    firstInit := true
    storage := st }

/-- `get initializing()`: `_firstInit.value || _initializing.value !== 0`. -/
def initializing (s : AuthState) : Bool :=
  s.firstInit || s.initCounter != 0

/-- `get needsCreatePassword()`: `null` (↦ `none`) when there is no user, no
current provider (a falsy provider value: `null` or the empty string), or
the provider is Google/DevLogin; otherwise whether the account lacks the
`EmailAndPassword` method.  (`providers` is always an array in the source,
hence truthy, so its null-check never fires.) -/
def needsCreatePassword (s : AuthState) : Option Bool :=
  match s.authUser with
  | none => none
  | some u =>
    match u.currentProvider with
    | none => none
    | some p =>
      if p = .Google || p = .DevLogin then none
      else some (!(u.providers.contains .EmailAndPassword))

/-- `setNextProvider(p)`: overwrite the transient hint. -/
def setNextProvider (p : AuthProviders) (s : AuthState) : AuthState :=
  { s with nextProvider := some p }

/-- Firebase sign-in method string constants (`EmailAuthProvider` /
`GoogleAuthProvider`). -/
def EMAIL_PASSWORD_SIGN_IN_METHOD : String := "password"
def EMAIL_LINK_SIGN_IN_METHOD : String := "emailLink"
def GOOGLE_PROVIDER_ID : String := "google.com"

/-- The `switch` inside `getEmailAuthMethod`: raw backend method string to
`AuthProviders`, unknown methods to `null`. -/
def decodeSignInMethod (m : String) : Option AuthProviders :=
  if m = EMAIL_PASSWORD_SIGN_IN_METHOD then some .EmailAndPassword
  else if m = EMAIL_LINK_SIGN_IN_METHOD then some .EmailLink
  else if m = GOOGLE_PROVIDER_ID then some .Google
  else none

/-- `getEmailAuthMethod(email)`: for a falsy email the backend is not
queried and the result is `[]`; otherwise map the backend's method strings
through the `switch` and drop the `null`s.  `fetch` is the backend's
`fetchSignInMethodsForEmail`. -/
def getEmailAuthMethod (fetch : String → List String) (email : String) :
    List AuthProviders :=
  if email = "" then []
  else ((fetch email).map decodeSignInMethod).reduceOption

/-- Environment seen by one reconciliation: the backend's current user and
its `fetchSignInMethodsForEmail`. -/
structure FirebaseEnv where
  currentUser : Option AuthUser
  fetchSignInMethodsForEmail : String → List String

/-- `processAuthUser()`: one reconciliation triggered by a backend
auth-state notification.  Mirrors the source step for step: clear
`_firstInit`; read the backend user; fetch the account's methods (only for
a truthy email); resolve the provider (hint wins, is cleared and persisted;
otherwise decode the persisted id with `|| ''`); build the snapshot; commit
it; only on a signed-out→signed-in transition evaluate password-setup
mode. -/
def processAuthUser (env : FirebaseEnv) (s0 : AuthState) : AuthState :=
  let s := { s0 with firstInit := false }
  let authUser := env.currentUser
  let methods : List AuthProviders :=
    match authUser with
    | none => []
    | some u =>
      match u.email with
      | none => []
      | some e =>
        if e = "" then []
        else getEmailAuthMethod env.fetchSignInMethodsForEmail e
  let resolved : Option AuthProviders × AuthState :=
    match authUser with
    | none => (none, s)
    | some _ =>
      match s.nextProvider with
      | some p =>
        (some p,
          { s with
            nextProvider := none
            storage := s.storage.setValue AuthProviderIdKey (provKey p) })
      | none =>
        (decodeProvider ((s.storage.getValue AuthProviderIdKey).getD ""), s)
  let provider := resolved.1
  let s := resolved.2
  let signedIn := s.authUser.isNone && authUser.isSome
  let result : Option AuthUserWithProviders :=
    authUser.map (fun u =>
      { toAuthUser := u, providers := methods, currentProvider := provider })
  let s := { s with authUser := result }
  if signedIn then
    let createPassword := (needsCreatePassword s).getD false
    let resetPassword :=
      (provider == some .EmailLink)
        && (s.storage.getValue PasswordResetRequestedKey == some "true")
    if createPassword || resetPassword then
      { s with setPasswordMode := true }
    else s
  else s

/-- `doInitialization(cb)`: increment the gate counter, run the callback,
and decrement in a `finally` block — the decrement happens whether the
callback resolves or throws, which the pair-valued `cb` encodes (its
`Except` result carries the throw, its state component is the state at
resolution/throw time). -/
def doInitialization {α : Type} (cb : AuthState → Except ErrCode α × AuthState)
    (s : AuthState) : Except ErrCode α × AuthState :=
  let s1 := { s with initCounter := s.initCounter + 1 }
  let r := cb s1
  (r.1, { r.2 with initCounter := r.2.initCounter - 1 })

/-- Outcomes of the awaited steps inside the sign-out task: the
`_onSignOut` hook (external handlers), `servicesSignOut` (abstract
`googleSignOut`), the two storage removals, and the backend `signOut`. -/
structure SignOutEnv where
  onSignOutResult : Option ErrCode
  servicesSignOutResult : Option ErrCode
  removeProviderResult : Option ErrCode
  removeReasonResult : Option ErrCode
  firebaseSignOutResult : Option ErrCode

/-- The async callback passed to `doInitialization` by `signOut`: clear
password-setup mode, await the pre-sign-out hook, the service sign-out, the
two key removals and the backend sign-out in order; the `catch` block logs
and rethrows, so the first failing step's error propagates out of the
task unchanged. -/
def signOutTask (env : SignOutEnv) (s0 : AuthState) :
    Except ErrCode Unit × AuthState :=
  let s := { s0 with setPasswordMode := false }
  match env.onSignOutResult with
  | some e => (Except.error e, s)
  | none =>
  match env.servicesSignOutResult with
  | some e => (Except.error e, s)
  | none =>
  match env.removeProviderResult with
  | some e => (Except.error e, s)
  | none =>
  let s := { s with storage := s.storage.remove AuthProviderIdKey }
  match env.removeReasonResult with
  | some e => (Except.error e, s)
  | none =>
  let s := { s with storage := s.storage.remove MagicLinkReasonKey }
  match env.firebaseSignOutResult with
  | some e => (Except.error e, s)
  | none => (Except.ok (), s)

/-- What `signOut()` produces: the result the caller's awaited promise
settles with, and separately the result of the gated task, because the
source calls `this.doInitialization(...)` without `await`ing or returning
it — the task runs detached and its rejection never reaches the caller. -/
structure SignOutOutcome where
  callerResult : Except ErrCode Unit
  taskResult : Except ErrCode Unit
  state : AuthState
  deriving Repr

/-- `signOut()`: fires the gated sign-out task and resolves immediately;
the task's outcome is kept separately (see `SignOutOutcome`). -/
def signOut (env : SignOutEnv) (s : AuthState) : SignOutOutcome :=
  let r := doInitialization (signOutTask env) s
  { callerResult := Except.ok (), taskResult := r.1, state := r.2 }

/-- ASCII whitespace, for email trimming. -/
def isSpaceChar (c : Char) : Bool :=
  c = ' ' || c = '\t' || c = '\n' || c = '\r'

/-- ASCII lowercasing of one character. -/
def lowerChar (c : Char) : Char :=
  if 'A' ≤ c && c ≤ 'Z' then Char.ofNat (c.toNat + 32) else c

/-- Modelled from the spec: `prepareEmail` comes from the external
`@zajno/common` package; the spec's scenario says the stored email is
"normalized (trimmed/lowercased)".  Implemented over the character list
(trim whitespace at both ends, lowercase ASCII letters) so that it
evaluates by kernel reduction. -/
def prepareEmail (e : String) : String :=
  String.mk
    ((((e.data.dropWhile isSpaceChar).reverse.dropWhile
        isSpaceChar).reverse).map lowerChar)

/-- Outcome of the backend `sendSignInLinkToEmail` call. -/
structure SendLinkEnv where
  sendSignInLinkResult : Option ErrCode

/-- `sendMagicLinkRequest(email, reason)`: normalize the email, persist
`{email, reason}` (a falsy reason is stored as `'empty'`), clear any stale
password-reset flag, then ask the backend to dispatch the link. -/
def sendMagicLinkRequest (env : SendLinkEnv) (email : String)
    (reason : Option MagicLinkRequestReasons) (s0 : AuthState) :
    Except ErrCode Unit × AuthState :=
  let email := prepareEmail email
  let s := { s0 with
    storage := s0.storage.setValue UserSignInEmailStorageKey email }
  let s := { s with
    storage := s.storage.setValue MagicLinkReasonKey
      ((reason.map reasonKey).getD "empty") }
  let s := { s with storage := s.storage.remove PasswordResetRequestedKey }
  match env.sendSignInLinkResult with
  | some e => (Except.error e, s)
  | none => (Except.ok (), s)

/-- Environment of a magic-link redemption: whether the backend recognizes
the current URL as a sign-in link, and the outcome of
`signInWithEmailLink`. -/
structure EmailLinkEnv where
  isSignInWithEmailLink : Bool
  signInWithEmailLinkResult : Option ErrCode

/-- The error component of `processEmailLink`'s result:
`'invalidLink' | 'noemail' | Error`. -/
inductive EmailLinkError where
  | invalidLink
  | noemail
  | backend (e : ErrCode)
  deriving DecidableEq, Repr

/-- Return shape of `processEmailLink` — `{ result?, error?, email? }` —
plus the controller state it leaves behind. -/
structure EmailLinkOutcome where
  result : Bool
  error : Option EmailLinkError
  email : Option String
  state : AuthState
  deriving DecidableEq, Repr

/-- `processEmailLink()`: redemption phase of the magic-link flow, mirroring
the source: read the pending email; if the URL is not a sign-in link return
`invalidLink` untouched; if the prepared email is falsy return `noemail`;
set the hint to `EmailLink` and complete the backend sign-in — on failure
set the hint to `None` and return the error with the email; on success
handle a `PasswordReset` reason (persist the reset flag, force password
mode), then clear the reason and email keys. -/
def processEmailLink (env : EmailLinkEnv) (s0 : AuthState) :
    EmailLinkOutcome :=
  let email0 := s0.storage.getValue UserSignInEmailStorageKey
  if !env.isSignInWithEmailLink then
    { result := false, error := some .invalidLink, email := none, state := s0 }
  else
    let email := prepareEmail (email0.getD "")
    if email = "" then
      { result := false, error := some .noemail, email := none, state := s0 }
    else
      let s := setNextProvider .EmailLink s0
      match env.signInWithEmailLinkResult with
      | some err =>
        { result := false, error := some (.backend err), email := some email
          state := setNextProvider .None s }
      | none =>
        let reason := s.storage.getValue MagicLinkReasonKey
        let s :=
          if reason == some (reasonKey .PasswordReset) then
            { s with
              storage := s.storage.setValue PasswordResetRequestedKey "true"
              setPasswordMode := true }
          else s
        let s := { s with storage := s.storage.remove MagicLinkReasonKey }
        let s := { s with storage := s.storage.remove UserSignInEmailStorageKey }
        { result := true, error := none, email := none, state := s }

/-- The `AuthErrors` variants `updatePassword` can report. -/
inductive AuthErrors where
  | InvalidAuthState
  | WrongPassword
  | NeedsReauthentication
  deriving DecidableEq, Repr

/-- `AuthResult`: `{ result, error?, original? }`. -/
structure AuthResult where
  result : Bool
  error : Option AuthErrors
  original : Option ErrCode
  deriving DecidableEq, Repr

/-- Environment of `updatePassword`: the backend's current user, the
outcome of the n-th `authUser.updatePassword` call (`none` = resolved), the
outcome of `reauthenticateWithCredential` as a function of the credential's
email and password, and `fetchSignInMethodsForEmail` for the success-path
providers refresh. -/
structure UpdatePasswordEnv where
  currentUser : Option AuthUser
  updatePasswordResult : Nat → Option ErrCode
  reauthResult : String → String → Option ErrCode
  fetchSignInMethodsForEmail : String → List String

/-- State updates on a successful backend password update: refresh the
snapshot's providers from the backend, clear password-setup mode, remove
the durable reset flag. -/
def updatePasswordSuccessState (env : UpdatePasswordEnv) (authUser : AuthUser)
    (s : AuthState) : AuthState :=
  { s with
    authUser := s.authUser.map (fun a =>
      { a with providers := (getEmailAuthMethod env.fetchSignInMethodsForEmail
          (authUser.email.getD "")) })
    setPasswordMode := false
    storage := s.storage.remove PasswordResetRequestedKey }

/-- The recursive call `return await this.updatePassword(password)` made
after a successful re-authentication: `updatePassword` with `oldPassword`
absent.  Its body is the same with the oldPassword branch dead, so a second
`requires-recent-login` failure yields `NeedsReauthentication` and cannot
recurse again (the unrolling below, `updatePassword`, proves depth one is
exact). -/
def updatePasswordRetry (env : UpdatePasswordEnv) (_password : String)
    (s : AuthState) (calls : Nat) :
    Except ErrCode AuthResult × AuthState × Nat :=
  match env.currentUser with
  | none =>
    (Except.ok { result := false, error := some .InvalidAuthState
                 original := none }, s, calls)
  | some authUser =>
    match env.updatePasswordResult calls with
    | none =>
      (Except.ok { result := true, error := none, original := none },
        updatePasswordSuccessState env authUser s, calls + 1)
    | some err =>
      if err.code = "auth/requires-recent-login" then
        (Except.ok { result := false, error := some .NeedsReauthentication
                     original := some err }, s, calls + 1)
      else
        (Except.error err, s, calls + 1)

/-- `updatePassword(password, oldPassword?)`.  `calls` counts backend
`updatePassword` calls already made (0 at the public entry); the returned
`Nat` is the total made.  The requires-recent-login + reauth-success branch
performs the source's single recursive call with `oldPassword := none`,
written here as `updatePasswordRetry` (the same body specialised to an
absent `oldPassword`).  The re-authentication credential is built from the
session snapshot's email (`this.authUser.email`) and `oldPassword`. -/
def updatePassword (env : UpdatePasswordEnv) (password : String)
    (oldPassword : Option String) (s : AuthState) (calls : Nat) :
    Except ErrCode AuthResult × AuthState × Nat :=
  match env.currentUser with
  | none =>
    (Except.ok { result := false, error := some .InvalidAuthState
                 original := none }, s, calls)
  | some authUser =>
    match env.updatePasswordResult calls with
    | none =>
      (Except.ok { result := true, error := none, original := none },
        updatePasswordSuccessState env authUser s, calls + 1)
    | some err =>
      if err.code = "auth/requires-recent-login" then
        match oldPassword with
        | some old =>
          let sessionEmail := (s.authUser.bind (fun a => a.email)).getD ""
          match env.reauthResult sessionEmail old with
          | some err2 =>
            (Except.ok { result := false
                         error := some (if err2.code = "auth/wrong-password"
                           then .WrongPassword else .InvalidAuthState)
                         original := some err2 },
              s, calls + 1)
          | none => updatePasswordRetry env password s (calls + 1)
        | none =>
          (Except.ok { result := false, error := some .NeedsReauthentication
                       original := some err },
            s, calls + 1)
      else
        (Except.error err, s, calls + 1)

/-- Contiguous-sublist test over character lists (computable by
reduction). -/
def containsSub (sub : List Char) : List Char → Bool
  | [] => sub.isPrefixOf []
  | c :: t => sub.isPrefixOf (c :: t) || containsSub sub t

/-- `err.message && err.message.includes(sub)`: substring test (an empty
message models a missing one and contains nothing nonempty). -/
def strIncludes (hay sub : String) : Bool :=
  containsSub sub.data hay.data

/-- Environment of `signInWithGoogle`: the popup's result (`ok none` is the
null/cancelled result, `error e` a rejection) and the outcome of the
best-effort `linkWithCredential` recovery. -/
structure GoogleSignInEnv where
  popupResult : Except ErrCode (Option AuthUser)
  linkResult : Option ErrCode

/-- `signInWithGoogle()`: set the hint to `Google`; a null popup result
resets it to `None` and returns `false`; on a rejection the hint is reset
to `None`, then a cancellation code (`'-3'` or a message containing
`'error -3'`) returns `false`; an account-exists-with-different-credential
error tries to link an email credential — link success returns `false`,
link failure is swallowed and the original error is rethrown; any other
error is rethrown. -/
def signInWithGoogle (env : GoogleSignInEnv) (s0 : AuthState) :
    Except ErrCode Bool × AuthState :=
  let s := setNextProvider .Google s0
  match env.popupResult with
  | Except.ok none =>
    (Except.ok false, setNextProvider .None s)
  | Except.ok (some _user) =>
    (Except.ok true, s)
  | Except.error err =>
    let s := setNextProvider .None s
    if err.code = "-3" || strIncludes err.message "error -3" then
      (Except.ok false, s)
    else if err.code = "auth/account-exists-with-different-credential" then
      match env.linkResult with
      | none => (Except.ok false, s)
      | some _inner => (Except.error err, s)
    else
      (Except.error err, s)

/-! Specification-side views of the reconciliation (used only in theorem
statements, to phrase what `processAuthUser` commits). -/

/-- The provider a reconciliation resolves: the transient hint when the
backend reports a user and a hint is set, else the decoded persisted id,
and `null` when there is no user. -/
def resolvedProvider (env : FirebaseEnv) (s : AuthState) :
    Option AuthProviders :=
  match env.currentUser with
  | none => none
  | some _ =>
    match s.nextProvider with
    | some p => some p
    | none => decodeProvider ((s.storage.getValue AuthProviderIdKey).getD "")

/-- The credential methods a reconciliation attaches to the snapshot. -/
def reconcileMethods (env : FirebaseEnv) : List AuthProviders :=
  match env.currentUser with
  | none => []
  | some u =>
    match u.email with
    | none => []
    | some e =>
      if e = "" then []
      else getEmailAuthMethod env.fetchSignInMethodsForEmail e

/-- The condition under which a signed-out→signed-in reconciliation turns
password-setup mode on, as the code evaluates it: either the resolved
provider is non-null, not Google/DevLogin, and the account lacks the
`EmailAndPassword` method, or the resolved provider is `EmailLink` and the
durable reset flag equals `'true'`. -/
def passwordModeCond (env : FirebaseEnv) (s : AuthState) : Bool :=
  (match resolvedProvider env s with
   | none => false
   | some p =>
     if p = .Google || p = .DevLogin then false
     else !((reconcileMethods env).contains .EmailAndPassword))
  || ((match resolvedProvider env s with
       | some .EmailLink => true
       | _ => false)
      && decide (s.storage.getValue PasswordResetRequestedKey = some "true"))

/-! Concrete fixtures used by counterexamples and witnesses. -/

/-- A backend user with a truthy email. -/
def sampleUser : AuthUser :=
  { uid := "u1", displayName := none, email := some "a@b.c"
    emailVerified := true, phoneNumber := none, photoURL := none }

/-- Backend: user signed in, account has no credential methods at all. -/
def envNoMethods : FirebaseEnv :=
  { currentUser := some sampleUser, fetchSignInMethodsForEmail := fun _ => [] }

/-- Backend: nobody signed in. -/
def envNoUser : FirebaseEnv :=
  { currentUser := none, fetchSignInMethodsForEmail := fun _ => [] }

/-- `auth/requires-recent-login` error. -/
def eRecentLogin : ErrCode :=
  { code := "auth/requires-recent-login", message := "", email := "" }

/-- `auth/wrong-password` error. -/
def eWrongPassword : ErrCode :=
  { code := "auth/wrong-password", message := "", email := "" }

/-- A generic network error. -/
def eNetwork : ErrCode :=
  { code := "auth/network-request-failed", message := "network down", email := "" }

/-- `auth/account-exists-with-different-credential` error. -/
def eAccountExists : ErrCode :=
  { code := "auth/account-exists-with-different-credential"
    message := "conflict", email := "a@b.c" }

/-- A signed-in controller state (snapshot committed for `sampleUser`). -/
def sSignedIn : AuthState :=
  { mkInitialState [] with
    firstInit := false
    authUser := some { toAuthUser := sampleUser, providers := [.EmailAndPassword]
                       currentProvider := some .EmailAndPassword } }

/-- A freshly constructed state whose hint was set to `Google`. -/
def sHintGoogle : AuthState :=
  { mkInitialState [] with nextProvider := some .Google }

/-- `updatePassword` environment: the first backend call fails with
`requires-recent-login`, re-authentication resolves, the retry resolves. -/
def envUPretry : UpdatePasswordEnv :=
  { currentUser := some sampleUser
    updatePasswordResult := fun n => if n = 0 then some eRecentLogin else none
    reauthResult := fun _ _ => none
    fetchSignInMethodsForEmail := fun _ => [EMAIL_PASSWORD_SIGN_IN_METHOD] }

/-- Sign-out environment where only the final backend `signOut` call
rejects. -/
def envSignOutFail : SignOutEnv :=
  { onSignOutResult := none, servicesSignOutResult := none
    removeProviderResult := none, removeReasonResult := none
    firebaseSignOutResult := some eNetwork }

/-! Helper lemmas about the storage model. -/

theorem getValue_remove (st : Storage) (k : String) :
    (st.remove k).getValue k = none := by
  induction st with
  | nil => rfl
  | cons kv tl ih =>
    unfold Storage.remove Storage.getValue at ih ⊢
    by_cases h : kv.1 = k
    · rw [List.filter_cons_of_neg (by simp [h])]
      exact ih
    · rw [List.filter_cons_of_pos (by simp [h]),
        List.find?_cons_of_neg _ (by simp [h])]
      exact ih

theorem getValue_remove_ne (st : Storage) (k k2 : String) (h : k ≠ k2) :
    (st.remove k2).getValue k = st.getValue k := by
  induction st with
  | nil => rfl
  | cons kv tl ih =>
    unfold Storage.remove Storage.getValue at ih ⊢
    by_cases h1 : kv.1 = k2
    · rw [List.filter_cons_of_neg (by simp [h1]),
        List.find?_cons_of_neg _ (by simp [h1]; exact fun hk => h hk.symm)]
      exact ih
    · rw [List.filter_cons_of_pos (by simp [h1])]
      by_cases h2 : kv.1 = k
      · rw [List.find?_cons_of_pos _ (by simp [h2]),
          List.find?_cons_of_pos _ (by simp [h2])]
      · rw [List.find?_cons_of_neg _ (by simp [h2]),
          List.find?_cons_of_neg _ (by simp [h2])]
        exact ih

theorem getValue_setValue_self (st : Storage) (k v : String) :
    (st.setValue k v).getValue k = some v := by
  unfold Storage.setValue Storage.getValue
  rw [List.find?_cons_of_pos _ (by simp)]
  rfl

theorem getValue_setValue_ne (st : Storage) (k k2 v : String) (h : k ≠ k2) :
    (st.setValue k2 v).getValue k = st.getValue k := by
  unfold Storage.setValue Storage.getValue
  rw [List.find?_cons_of_neg _ (by simp; exact fun hk => h hk.symm)]
  exact getValue_remove_ne st k k2 h

/-! Claims about the reconciliation (`processAuthUser`). -/

/-- C1: for every reconciliation triggered by a backend auth-state
notification, the committed snapshot's `currentProvider` equals the
transient next-provider hint if one was set before the notification,
otherwise the persisted durable provider id (empty string decoding to
`null`), otherwise `null` (and the snapshot itself is `null` when the
backend reports no user); when the hint wins it is also persisted as the
durable provider id. -/
theorem c1_reconcile_provider (env : FirebaseEnv) (s : AuthState) :
    ((processAuthUser env s).authUser.map (fun a => a.currentProvider) =
      env.currentUser.map (fun _ => resolvedProvider env s)) ∧
    (∀ u p, env.currentUser = some u → s.nextProvider = some p →
      (processAuthUser env s).storage.getValue AuthProviderIdKey =
        some (provKey p)) := by
  constructor
  · unfold processAuthUser resolvedProvider
    cases hu : env.currentUser with
    | none => simp
    | some u =>
      cases hp : s.nextProvider with
      | none => simp [hp, apply_ite (fun t : AuthState => t.authUser)]
      | some p => simp [hp, apply_ite (fun t : AuthState => t.authUser)]
  · intro u p hu hp
    unfold processAuthUser
    rw [hu, hp]
    simp [apply_ite (fun t : AuthState => t.storage),
      getValue_setValue_self]

/-- C1 witness: with a signed-in backend user and the hint set to `Google`,
the hint is persisted as the durable provider id. -/
theorem c1_reconcile_provider_witness :
    (processAuthUser envNoMethods sHintGoogle).storage.getValue
      AuthProviderIdKey = some (provKey .Google) :=
  (c1_reconcile_provider envNoMethods sHintGoogle).2 sampleUser .Google rfl rfl

/-- C2 counterexample: a signed-out→signed-in reconciliation (previous
snapshot null, backend user present) where the account's provider-methods
list is empty (so it does not contain `EmailAndPassword`) and the resolved
current provider is `null` — which is neither Google nor DevLogin — yet
`setPasswordMode` stays `false`: `needsCreatePassword` short-circuits to
`null` on a falsy provider, so the claimed condition (a) does not fire. -/
theorem c2_counterexample :
    ((processAuthUser envNoMethods (mkInitialState [])).authUser.map
        (fun a => (a.providers, a.currentProvider)) = some ([], none)) ∧
    (mkInitialState []).authUser = none ∧
    (processAuthUser envNoMethods (mkInitialState [])).setPasswordMode
      = false := by
  refine ⟨rfl, rfl, rfl⟩

/-- C2 (amended): `setPasswordMode` becomes true exactly when, evaluated
only on a signed-out→signed-in transition, either (a) the account's
provider-methods list does not contain `EmailAndPassword` and the current
provider is non-null and neither Google nor DevLogin, or (b) the current
provider is `EmailLink` and the durable password-reset-requested flag
equals `'true'`; on any other reconciliation (in particular a
signed-in→signed-in refresh) the flag keeps its previous value. -/
theorem c2_setPasswordMode_amended (env : FirebaseEnv) (s : AuthState) :
    (processAuthUser env s).setPasswordMode =
      (s.setPasswordMode ||
        ((s.authUser.isNone && env.currentUser.isSome)
          && passwordModeCond env s)) := by
  unfold processAuthUser passwordModeCond resolvedProvider reconcileMethods
  cases hu : env.currentUser with
  | none => simp
  | some u =>
    have hprk : ∀ p, (s.storage.setValue AuthProviderIdKey (provKey p)).getValue
        PasswordResetRequestedKey = s.storage.getValue PasswordResetRequestedKey :=
      fun p => getValue_setValue_ne _ _ _ _ (by decide)
    cases hsn : s.authUser with
    | some prev =>
      cases hp : s.nextProvider <;>
        simp [hp, hsn, apply_ite (fun t : AuthState => t.setPasswordMode)]
    | none =>
      cases hp : s.nextProvider with
      | none =>
        cases hdec : decodeProvider ((s.storage.getValue AuthProviderIdKey).getD "") with
        | none =>
          simp [hp, hsn, hdec, needsCreatePassword,
            apply_ite (fun t : AuthState => t.setPasswordMode), Bool.or_comm]
        | some q =>
          cases q <;>
            simp [hp, hsn, hdec, needsCreatePassword,
              apply_ite (fun t : AuthState => t.setPasswordMode),
              Bool.or_comm, Bool.or_assoc, Bool.or_left_comm]
      | some p =>
        cases p <;>
          simp [hp, hsn, hprk, needsCreatePassword,
            apply_ite (fun t : AuthState => t.setPasswordMode),
            Bool.or_comm, Bool.or_assoc, Bool.or_left_comm]

/-- C2 witness: on a signed-out→signed-in transition via `EmailLink` with
the durable reset flag set, password-setup mode activates. -/
theorem c2_setPasswordMode_amended_witness :
    (processAuthUser envNoMethods
        { mkInitialState [(PasswordResetRequestedKey, "true")] with
          nextProvider := some .EmailLink }).setPasswordMode = true := by
  have h := c2_setPasswordMode_amended envNoMethods
    { mkInitialState [(PasswordResetRequestedKey, "true")] with
      nextProvider := some .EmailLink }
  rw [h]
  rfl

/-- C9 counterexample: a hint (`Google`) is set and the next reconciliation
is triggered by a signed-out notification — after that reconciliation
completes, the hint slot still holds `Google` instead of being cleared:
`processAuthUser` only consumes the hint when the backend reports a
user. -/
theorem c9_counterexample :
    (processAuthUser envNoUser sHintGoogle).nextProvider
      = some AuthProviders.Google := rfl

/-- C9 (amended): the transient provider hint is a single-slot mailbox —
every `setNextProvider` overwrites any unconsumed value — and the next
reconciliation that observes a signed-in backend user consumes it exactly
once (clears the slot and persists the hint as the durable provider id); a
reconciliation observing no user leaves the slot untouched. -/
theorem c9_hint_mailbox_amended (env : FirebaseEnv) (s : AuthState) :
    (∀ p, (setNextProvider p s).nextProvider = some p) ∧
    (env.currentUser.isSome = true →
      (processAuthUser env s).nextProvider = none) ∧
    (env.currentUser = none →
      (processAuthUser env s).nextProvider = s.nextProvider) ∧
    (∀ u p, env.currentUser = some u → s.nextProvider = some p →
      (processAuthUser env s).storage.getValue AuthProviderIdKey =
        some (provKey p)) := by
  refine ⟨fun p => rfl, ?_, ?_, ?_⟩
  · intro hu
    unfold processAuthUser
    cases hcu : env.currentUser with
    | none => rw [hcu] at hu; simp at hu
    | some u =>
      cases hp : s.nextProvider <;>
        simp [hp, apply_ite (fun t : AuthState => t.nextProvider)]
  · intro hu
    unfold processAuthUser
    rw [hu]
    simp
  · intro u p hu hp
    unfold processAuthUser
    rw [hu, hp]
    simp [apply_ite (fun t : AuthState => t.storage), getValue_setValue_self]

/-- C9 witness: with a user signed in and the hint set to `Google`, the
reconciliation clears the hint slot. -/
theorem c9_hint_mailbox_amended_witness :
    (processAuthUser envNoMethods sHintGoogle).nextProvider = none :=
  (c9_hint_mailbox_amended envNoMethods sHintGoogle).2.1 rfl

/-! Claims about the initialization gate and sign-out. -/

theorem processAuthUser_initCounter (env : FirebaseEnv) (s : AuthState) :
    (processAuthUser env s).initCounter = s.initCounter := by
  unfold processAuthUser
  cases hu : env.currentUser <;>
    [skip; cases hp : s.nextProvider] <;>
    simp [apply_ite (fun t : AuthState => t.initCounter)]

theorem processAuthUser_firstInit (env : FirebaseEnv) (s : AuthState) :
    (processAuthUser env s).firstInit = false := by
  unfold processAuthUser
  cases hu : env.currentUser <;>
    [skip; cases hp : s.nextProvider] <;>
    simp [apply_ite (fun t : AuthState => t.firstInit)]

/-- C7: `initializing` is true from construction until the first
reconciliation fully completes, and is true in the state any gated callback
runs in; every `doInitialization` increment is paired with a decrement that
happens whether the callback resolves or throws, so a counter-preserving
callback — even one that returns an error — leaves the counter exactly
where it was. -/
theorem c7_initialization_gate (st : Storage) (env : FirebaseEnv)
    (s : AuthState) {α : Type}
    (cb : AuthState → Except ErrCode α × AuthState)
    (hcb : ∀ t, ((cb t).2).initCounter = t.initCounter) :
    initializing (mkInitialState st) = true ∧
    (∀ t : AuthState, 0 ≤ t.initCounter →
      initializing { t with initCounter := t.initCounter + 1 } = true) ∧
    ((doInitialization cb s).2).initCounter = s.initCounter ∧
    initializing ((doInitialization
      (fun t => (Except.ok (), processAuthUser env t))
      (mkInitialState st)).2) = false := by
  refine ⟨rfl, ?_, ?_, ?_⟩
  · intro t ht
    have : t.initCounter + 1 ≠ 0 := by omega
    simp [initializing, this]
  · unfold doInitialization
    simp only [hcb]
    omega
  · unfold doInitialization initializing
    simp [processAuthUser_initCounter, processAuthUser_firstInit, mkInitialState]

/-- C7 witness: a callback that throws still restores the counter. -/
theorem c7_initialization_gate_witness :
    ((doInitialization
      (fun t => ((Except.error eNetwork : Except ErrCode Unit), t))
      sSignedIn).2).initCounter = sSignedIn.initCounter :=
  (c7_initialization_gate [] envNoUser sSignedIn
    (fun t => ((Except.error eNetwork : Except ErrCode Unit), t))
    (fun _ => rfl)).2.2.1

/-- C4: the source intends every failure inside sign-out (pre-sign-out
hook, service sign-out, durable key removals, backend sign-out) to be
logged and rethrown, but `signOut` invokes `doInitialization` without
awaiting it, so the rejection stays on the detached task: with a failing
backend `signOut` call the task rejects with that error while the promise
returned to `signOut`'s caller still resolves. -/
theorem c4_signout_failure_detached (env : SignOutEnv) (s : AuthState) :
    (signOut env s).callerResult = Except.ok () ∧
    (∀ e, env.onSignOutResult = some e →
      (signOut env s).taskResult = Except.error e) ∧
    (∀ e, env.onSignOutResult = none → env.servicesSignOutResult = some e →
      (signOut env s).taskResult = Except.error e) ∧
    (∀ e, env.onSignOutResult = none → env.servicesSignOutResult = none →
      env.removeProviderResult = some e →
      (signOut env s).taskResult = Except.error e) ∧
    (∀ e, env.onSignOutResult = none → env.servicesSignOutResult = none →
      env.removeProviderResult = none → env.removeReasonResult = some e →
      (signOut env s).taskResult = Except.error e) ∧
    (∀ e, env.onSignOutResult = none → env.servicesSignOutResult = none →
      env.removeProviderResult = none → env.removeReasonResult = none →
      env.firebaseSignOutResult = some e →
      (signOut env s).taskResult = Except.error e) := by
  refine ⟨rfl, ?_, ?_, ?_, ?_, ?_⟩ <;>
    · intro e
      intros
      unfold signOut doInitialization signOutTask
      simp_all

/-- C4 witness: concrete run where only the backend sign-out call rejects —
the caller's promise resolves, the detached task rejects. -/
theorem c4_signout_failure_detached_witness :
    (signOut envSignOutFail sSignedIn).callerResult = Except.ok () ∧
    (signOut envSignOutFail sSignedIn).taskResult = Except.error eNetwork :=
  ⟨(c4_signout_failure_detached envSignOutFail sSignedIn).1,
    (c4_signout_failure_detached envSignOutFail sSignedIn).2.2.2.2.2
      eNetwork rfl rfl rfl rfl rfl⟩

/-! Claims about the magic-link flow. -/

/-- C5: magic-link redemption — a URL the backend does not recognize as a
sign-in link yields the `invalidLink` error with no state change; a missing
pending email yields `noemail`; a backend failure after those checks sets
the provider hint to `None` and is returned together with the (prepared)
original email. -/
theorem c5_processEmailLink_errors (env : EmailLinkEnv) (s : AuthState) :
    (env.isSignInWithEmailLink = false →
      processEmailLink env s =
        { result := false, error := some .invalidLink, email := none
          state := s }) ∧
    (env.isSignInWithEmailLink = true →
      prepareEmail ((s.storage.getValue UserSignInEmailStorageKey).getD "")
        = "" →
      processEmailLink env s =
        { result := false, error := some .noemail, email := none
          state := s }) ∧
    (∀ err, env.isSignInWithEmailLink = true →
      prepareEmail ((s.storage.getValue UserSignInEmailStorageKey).getD "")
        ≠ "" →
      env.signInWithEmailLinkResult = some err →
      processEmailLink env s =
        { result := false, error := some (.backend err)
          email := some (prepareEmail
            ((s.storage.getValue UserSignInEmailStorageKey).getD ""))
          state := { s with nextProvider := some .None } }) := by
  refine ⟨?_, ?_, ?_⟩
  · intro h
    unfold processEmailLink
    simp [h]
  · intro h hmail
    unfold processEmailLink
    simp [h, hmail]
  · intro err h hmail hsign
    unfold processEmailLink
    simp [h, hmail, hsign, setNextProvider]

/-- C5 witness: with a pending email stored but a backend rejection during
redemption, the error is returned with the email and the hint is `None`. -/
theorem c5_processEmailLink_errors_witness :
    processEmailLink
        { isSignInWithEmailLink := true
          signInWithEmailLinkResult := some eNetwork }
        { mkInitialState [(UserSignInEmailStorageKey, "a@b.c")] with
          firstInit := false } =
      { result := false, error := some (.backend eNetwork)
        email := some "a@b.c"
        state := { mkInitialState [(UserSignInEmailStorageKey, "a@b.c")] with
          firstInit := false, nextProvider := some .None } } :=
  (c5_processEmailLink_errors
      { isSignInWithEmailLink := true
        signInWithEmailLinkResult := some eNetwork }
      { mkInitialState [(UserSignInEmailStorageKey, "a@b.c")] with
        firstInit := false }).2.2 eNetwork rfl (by decide) rfl

/-- C6: running the magic-link request phase and then immediately the
redemption phase for the same email, with the backend accepting the link
and completing the sign-in, succeeds, and afterwards neither the
pending-email key nor the pending-reason key is set in durable storage. -/
theorem c6_magic_link_round_trip (sEnv : SendLinkEnv) (lEnv : EmailLinkEnv)
    (email : String) (reason : Option MagicLinkRequestReasons) (s : AuthState)
    (hsend : sEnv.sendSignInLinkResult = none)
    (hurl : lEnv.isSignInWithEmailLink = true)
    (hsign : lEnv.signInWithEmailLinkResult = none)
    (hmail : prepareEmail (prepareEmail email) ≠ "") :
    (sendMagicLinkRequest sEnv email reason s).1 = Except.ok () ∧
    (processEmailLink lEnv (sendMagicLinkRequest sEnv email reason s).2).result
      = true ∧
    ((processEmailLink lEnv
        (sendMagicLinkRequest sEnv email reason s).2).state.storage.getValue
      UserSignInEmailStorageKey) = none ∧
    ((processEmailLink lEnv
        (sendMagicLinkRequest sEnv email reason s).2).state.storage.getValue
      MagicLinkReasonKey) = none := by
  have hstored :
      ((sendMagicLinkRequest sEnv email reason s).2).storage.getValue
        UserSignInEmailStorageKey = some (prepareEmail email) := by
    unfold sendMagicLinkRequest
    rw [hsend]
    simp only []
    rw [getValue_remove_ne _ _ _ (by decide),
      getValue_setValue_ne _ _ _ _ (by decide),
      getValue_setValue_self]
  refine ⟨?_, ?_, ?_, ?_⟩
  · unfold sendMagicLinkRequest
    rw [hsend]
  · unfold processEmailLink
    rw [hstored, hurl, hsign]
    simp [hmail]
  · unfold processEmailLink
    rw [hstored, hurl, hsign]
    simp only [Option.getD_some, Bool.not_true, Bool.false_eq_true,
      if_false, hmail, if_neg hmail]
    split <;> simp [getValue_remove]
  · unfold processEmailLink
    rw [hstored, hurl, hsign]
    simp only [Option.getD_some, Bool.not_true, Bool.false_eq_true,
      if_false, hmail, if_neg hmail]
    split <;>
      simp [getValue_remove,
        getValue_remove_ne _ MagicLinkReasonKey UserSignInEmailStorageKey
          (by decide)]

/-- C6 witness: the round trip for `"Foo@Bar.com "` with the
`PasswordReset` reason. -/
theorem c6_magic_link_round_trip_witness :
    (processEmailLink
        { isSignInWithEmailLink := true, signInWithEmailLinkResult := none }
        (sendMagicLinkRequest { sendSignInLinkResult := none } "Foo@Bar.com "
          (some .PasswordReset) (mkInitialState [])).2).result = true ∧
    ((processEmailLink
        { isSignInWithEmailLink := true, signInWithEmailLinkResult := none }
        (sendMagicLinkRequest { sendSignInLinkResult := none } "Foo@Bar.com "
          (some .PasswordReset) (mkInitialState [])).2).state.storage.getValue
      UserSignInEmailStorageKey) = none := by
  have h := c6_magic_link_round_trip { sendSignInLinkResult := none }
    { isSignInWithEmailLink := true, signInWithEmailLinkResult := none }
    "Foo@Bar.com " (some .PasswordReset) (mkInitialState [])
    rfl rfl rfl (by decide)
  exact ⟨h.2.1, h.2.2.1⟩

/-! Claims about `updatePassword` and `signInWithGoogle`. -/

theorem updatePassword_none_eq (env : UpdatePasswordEnv) (pw : String)
    (s : AuthState) (calls : Nat) :
    updatePassword env pw none s calls = updatePasswordRetry env pw s calls := by
  unfold updatePassword updatePasswordRetry
  cases env.currentUser with
  | none => rfl
  | some u =>
    cases env.updatePasswordResult calls with
    | none => rfl
    | some err =>
      by_cases h : err.code = "auth/requires-recent-login" <;> simp [h]

/-- C3: `updatePassword(newPassword, oldPassword?)` — with no current user
it returns `InvalidAuthState` (no backend call); on a
`requires-recent-login` failure with `oldPassword` supplied it
re-authenticates with the session email and `oldPassword` and, on
re-authentication success, retries exactly once without `oldPassword` (so a
second `requires-recent-login` is reported as `NeedsReauthentication`, not
retried again); a wrong-password re-authentication failure returns
`WrongPassword` and any other re-authentication failure returns
`InvalidAuthState`, neither retrying the update (one backend call total);
without `oldPassword` it returns `NeedsReauthentication`; all of these are
`Except.ok` tagged results, while any other backend failure is
`Except.error` with the original error. -/
theorem c3_updatePassword_outcomes (env : UpdatePasswordEnv) (pw : String)
    (s : AuthState) :
    (env.currentUser = none → ∀ old,
      updatePassword env pw old s 0 =
        (Except.ok { result := false, error := some .InvalidAuthState
                     original := none }, s, 0)) ∧
    (∀ u e1, env.currentUser = some u →
      env.updatePasswordResult 0 = some e1 →
      e1.code = "auth/requires-recent-login" →
      (updatePassword env pw none s 0 =
        (Except.ok { result := false, error := some .NeedsReauthentication
                     original := some e1 }, s, 1)) ∧
      (∀ old e2,
        env.reauthResult ((s.authUser.bind fun a => a.email).getD "") old
          = some e2 →
        updatePassword env pw (some old) s 0 =
          (Except.ok { result := false
                       error := some (if e2.code = "auth/wrong-password"
                         then .WrongPassword else .InvalidAuthState)
                       original := some e2 }, s, 1)) ∧
      (∀ old,
        env.reauthResult ((s.authUser.bind fun a => a.email).getD "") old
          = none →
        updatePassword env pw (some old) s 0 = updatePassword env pw none s 1 ∧
        (env.updatePasswordResult 1 = none →
          (updatePassword env pw (some old) s 0).1 =
            Except.ok { result := true, error := none, original := none } ∧
          (updatePassword env pw (some old) s 0).2.2 = 2) ∧
        (∀ e3, env.updatePasswordResult 1 = some e3 →
          e3.code = "auth/requires-recent-login" →
          updatePassword env pw (some old) s 0 =
            (Except.ok { result := false
                         error := some .NeedsReauthentication
                         original := some e3 }, s, 2)))) ∧
    (∀ u e1, env.currentUser = some u →
      env.updatePasswordResult 0 = some e1 →
      e1.code ≠ "auth/requires-recent-login" → ∀ old,
      updatePassword env pw old s 0 = (Except.error e1, s, 1)) := by
  refine ⟨?_, ?_, ?_⟩
  · intro hu old
    unfold updatePassword
    rw [hu]
  · intro u e1 hu h0 hcode
    refine ⟨?_, ?_, ?_⟩
    · unfold updatePassword
      rw [hu, h0]
      simp [hcode]
    · intro old e2 hre
      unfold updatePassword
      rw [hu, h0]
      simp [hcode, hre]
    · intro old hre
      have hstep : updatePassword env pw (some old) s 0 =
          updatePasswordRetry env pw s 1 := by
        unfold updatePassword
        rw [hu, h0]
        simp [hcode, hre]
      refine ⟨hstep.trans (updatePassword_none_eq env pw s 1).symm, ?_, ?_⟩
      · intro h1
        rw [hstep]
        unfold updatePasswordRetry
        rw [hu, h1]
        exact ⟨rfl, rfl⟩
      · intro e3 h1 hcode3
        rw [hstep]
        unfold updatePasswordRetry
        rw [hu, h1]
        simp [hcode3]
  · intro u e1 hu h0 hcode old
    unfold updatePassword
    rw [hu, h0]
    cases old <;> simp [hcode]

/-- C3 witness: first call fails with `requires-recent-login`,
re-authentication succeeds, the single retry succeeds: result `ok`, two
backend update calls in total. -/
theorem c3_updatePassword_outcomes_witness :
    (updatePassword envUPretry "newpw" (some "oldpw") sSignedIn 0).1 =
      Except.ok { result := true, error := none, original := none } ∧
    (updatePassword envUPretry "newpw" (some "oldpw") sSignedIn 0).2.2 = 2 :=
  ((c3_updatePassword_outcomes envUPretry "newpw" sSignedIn).2.1 sampleUser
    eRecentLogin rfl rfl rfl).2.2 "oldpw" rfl |>.2.1 rfl

/-- C8: `signInWithGoogle` — a null/cancelled popup result resets the hint
to `None` and returns `false` without throwing; an error with the
user-cancellation code (`'-3'` code or a message containing `'error -3'`)
likewise returns `false` with the hint reset to `None`; on an
account-exists-with-different-credential error with a failing
`linkWithCredential`, the link failure is swallowed and the original error
propagates; any other error resets the hint to `None` and is rethrown. -/
theorem c8_google_signin_errors (env : GoogleSignInEnv) (s : AuthState) :
    (env.popupResult = Except.ok none →
      signInWithGoogle env s =
        (Except.ok false, { s with nextProvider := some .None })) ∧
    (∀ err, env.popupResult = Except.error err →
      (err.code = "-3" ∨ strIncludes err.message "error -3" = true) →
      signInWithGoogle env s =
        (Except.ok false, { s with nextProvider := some .None })) ∧
    (∀ err inner, env.popupResult = Except.error err →
      err.code ≠ "-3" → strIncludes err.message "error -3" = false →
      err.code = "auth/account-exists-with-different-credential" →
      env.linkResult = some inner →
      signInWithGoogle env s =
        (Except.error err, { s with nextProvider := some .None })) ∧
    (∀ err, env.popupResult = Except.error err →
      err.code ≠ "-3" → strIncludes err.message "error -3" = false →
      err.code ≠ "auth/account-exists-with-different-credential" →
      signInWithGoogle env s =
        (Except.error err, { s with nextProvider := some .None })) := by
  refine ⟨?_, ?_, ?_, ?_⟩
  · intro hp
    unfold signInWithGoogle
    rw [hp]
    rfl
  · intro err hp hcancel
    unfold signInWithGoogle
    rw [hp]
    rcases hcancel with h | h <;> simp [setNextProvider, h]
  · intro err inner hp hc3 hmsg hacct hlink
    unfold signInWithGoogle
    rw [hp]
    simp [setNextProvider, hc3, hmsg, hacct, hlink]
  · intro err hp hc3 hmsg hacct
    unfold signInWithGoogle
    rw [hp]
    simp [setNextProvider, hc3, hmsg, hacct]

/-- C8 witness: a popup rejection with the cancellation code `'-3'` returns
`false` with the hint reset to `None`, throwing nothing. -/
theorem c8_google_signin_errors_witness :
    signInWithGoogle
        { popupResult :=
            Except.error { code := "-3", message := "", email := "" }
          linkResult := none }
        (mkInitialState []) =
      (Except.ok false,
        { mkInitialState [] with nextProvider := some .None }) :=
  (c8_google_signin_errors
      { popupResult := Except.error { code := "-3", message := "", email := "" }
        linkResult := none }
      (mkInitialState [])).2.1
    { code := "-3", message := "", email := "" } rfl (Or.inl rfl)

/-- C10: when the popup fails with the
account-exists-with-different-credential code and `linkWithCredential`
succeeds, `signInWithGoogle` returns `false` (the original error is not
rethrown and no successful sign-in is reported); when the link fails, the
inner error is swallowed and the original error is rethrown. -/
theorem c10_google_link_recovery (env : GoogleSignInEnv) (s : AuthState)
    (err : ErrCode)
    (hp : env.popupResult = Except.error err)
    (hmsg : strIncludes err.message "error -3" = false)
    (hacct : err.code = "auth/account-exists-with-different-credential") :
    (env.linkResult = none →
      (signInWithGoogle env s).1 = Except.ok false) ∧
    (∀ inner, env.linkResult = some inner →
      (signInWithGoogle env s).1 = Except.error err) := by
  have hc3 : err.code = "-3" → False := by
    intro h
    rw [hacct] at h
    exact absurd h (by decide)
  constructor
  · intro hlink
    unfold signInWithGoogle
    rw [hp]
    simp [setNextProvider, hc3, hmsg, hacct, hlink]
  · intro inner hlink
    unfold signInWithGoogle
    rw [hp]
    simp [setNextProvider, hc3, hmsg, hacct, hlink]

/-- C10 witness: account-exists error with a successful link — the result
is `false`, nothing is thrown. -/
theorem c10_google_link_recovery_witness :
    (signInWithGoogle
        { popupResult := Except.error eAccountExists, linkResult := none }
        (mkInitialState [])).1 = Except.ok false :=
  (c10_google_link_recovery
      { popupResult := Except.error eAccountExists, linkResult := none }
      (mkInitialState []) eAccountExists rfl (by decide) rfl).1 rfl

end AuthCtl
